import Mathlib

/-!
Shallow embedding of the customer-value pipeline from
`Identifying-most-valuable-customers.ipynb`.

The notebook is a linear pandas pipeline:
  * group transactions by `customer_id`, taking max `trans_date`, the group
    size and the summed `tran_amount`;
  * `churned = 1 if last trans_date < dt.datetime(2019, 10, 16) else 0`;
  * min-max scaling of `nr_of_transactions` and `amount_spent` over the whole
    table, `score = 100*(.5*scaled_tran + .5*scaled_amount)`;
  * `coupon = data["tran_amount"].mean()*0.3`, `nr_of_customers = 1000/coupon`;
  * `top_50_churned = best_churn.loc[best_churn["churned"] == 1].head(50)`.

Amounts are modelled as rationals, dates as year/month/day triples compared
chronologically.  A pandas column division whose denominator is zero yields a
non-numeric value (NaN); that is modelled by `Option ℚ` with `none` for the
non-numeric outcome.
-/

namespace CustomerValue

/-- Calendar date, compared chronologically like `datetime.datetime`. -/
structure Date where
  year : ℕ
  month : ℕ
  day : ℕ
deriving DecidableEq, Repr

/-- Chronological order on dates (lexicographic on year, month, day). -/
def Date.lt (a b : Date) : Prop :=
  a.year < b.year ∨ (a.year = b.year ∧
    (a.month < b.month ∨ (a.month = b.month ∧ a.day < b.day)))

instance : LT Date := ⟨Date.lt⟩

instance (a b : Date) : Decidable (a < b) := by
  change Decidable (Date.lt a b)
  unfold Date.lt
  infer_instance

/-- Non-strict chronological order on dates. -/
def Date.le (a b : Date) : Prop := a = b ∨ a < b

instance : LE Date := ⟨Date.le⟩

instance (a b : Date) : Decidable (a ≤ b) := by
  change Decidable (Date.le a b)
  unfold Date.le
  infer_instance

/-- `cutoff_day = dt.datetime(2019, 10, 16)` from the notebook. -/
def cutoff_day : Date := ⟨2019, 10, 16⟩

/-- One row of the input table: `customer_id`, `trans_date`, `tran_amount`. -/
structure Transaction where
  customer_id : String
  trans_date : Date
  tran_amount : ℚ
deriving DecidableEq, Repr

/-- The `churned` column:
`lambda date: 1 if date < cutoff_day else 0` applied to the last transaction
date, with the cutoff as a parameter. -/
def churned_flag (cutoff date : Date) : ℕ :=
  if date < cutoff then 1 else 0

/-- One row of the `best_churn` dataframe before scaling. -/
structure CustomerSummary where
  customer_id : String
  last_transaction_date : Date
  churned : ℕ
  nr_of_transactions : ℕ
  amount_spent : ℚ
deriving DecidableEq, Repr

/-- One row of the `best_churn` dataframe after the scaling cell: the three
derived columns may be non-numeric (`none`) when a scaling denominator was
zero. -/
structure ScoredCustomer where
  customer_id : String
  churned : ℕ
  nr_of_transactions : ℕ
  amount_spent : ℚ
  scaled_tran : Option ℚ
  scaled_amount : Option ℚ
  score : Option ℚ
deriving DecidableEq, Repr

/-- Column minimum (pandas `.min()`), defined on a nonempty column by
folding; the `[]` case is irrelevant to the pipeline. -/
def colMin (l : List ℚ) : ℚ :=
  match l with
  | [] => 0
  | x :: xs => xs.foldl min x

/-- Column maximum (pandas `.max()`), defined on a nonempty column by
folding; the `[]` case is irrelevant to the pipeline. -/
def colMax (l : List ℚ) : ℚ :=
  match l with
  | [] => 0
  | x :: xs => xs.foldl max x

/-- Float-style division: a zero denominator produces a non-numeric value
(`none`, standing for pandas NaN) instead of a number. -/
def naDiv (a b : ℚ) : Option ℚ :=
  if b = 0 then none else some (a / b)

/-- Non-numeric values propagate through arithmetic: the score is numeric only
when both scaled features are. -/
def naScore (st sa : Option ℚ) : Option ℚ :=
  match st, sa with
  | some a, some b => some (100 * (1/2 * a + 1/2 * b))
  | _, _ => none

/-- The `nr_of_transactions` column of a table, as rationals. -/
def tranCol (l : List CustomerSummary) : List ℚ :=
  l.map (fun s => (s.nr_of_transactions : ℚ))

/-- The `amount_spent` column of a table. -/
def amountCol (l : List CustomerSummary) : List ℚ :=
  l.map (fun s => s.amount_spent)

/-- The feature-scaling and scoring cell of the notebook:

```
best_churn["scaled_tran"]   = (nr_of_transactions - min) / (max - min)
best_churn["scaled_amount"] = (amount_spent - min) / (max - min)
best_churn["score"] = 100*(.5*scaled_tran + .5*scaled_amount)
```

with each min/max taken over the whole column.  `scoreRow` is the row-wise
part, parameterised by the four column statistics. -/
def scoreRow (minT maxT minA maxA : ℚ) (s : CustomerSummary) : ScoredCustomer :=
  let st := naDiv ((s.nr_of_transactions : ℚ) - minT) (maxT - minT)
  let sa := naDiv (s.amount_spent - minA) (maxA - minA)
  { customer_id := s.customer_id
    churned := s.churned
    nr_of_transactions := s.nr_of_transactions
    amount_spent := s.amount_spent
    scaled_tran := st
    scaled_amount := sa
    score := naScore st sa }

/-- The scaling/scoring cell applied to the whole table. -/
def score_table (l : List CustomerSummary) : List ScoredCustomer :=
  l.map (scoreRow (colMin (tranCol l)) (colMax (tranCol l))
    (colMin (amountCol l)) (colMax (amountCol l)))

/-- `best_churn.loc[best_churn["churned"] == 1].head(n)`: the churned rows in
table order, truncated to the first `n`. -/
def top_churned (l : List ScoredCustomer) (n : ℕ) : List ScoredCustomer :=
  (l.filter (fun s => s.churned == 1)).take n

/-- `top_50_churned` from the notebook: `n = 50`. -/
def top_50_churned (l : List ScoredCustomer) : List ScoredCustomer :=
  top_churned l 50

/-- `data["tran_amount"].mean()`: mean of the raw amount column. -/
def amountMean (amounts : List ℚ) : ℚ :=
  amounts.sum / amounts.length

/-- `coupon = data["tran_amount"].mean()*0.3`. -/
def coupon (amounts : List ℚ) : ℚ :=
  amountMean amounts * (3/10)

/-- `nr_of_customers = 1000/coupon`. -/
def nr_of_customers (amounts : List ℚ) : ℚ :=
  1000 / coupon amounts

/-- Number of coupons affordable at a given coupon value:
`floor(budget / coupon_value)`. -/
def couponCount (budget couponValue : ℚ) : ℤ :=
  ⌊budget / couponValue⌋

/-! ### The aggregation cells (`groupby`, `max`, `size`, `sum`) -/

/-- Larger of two dates (the step of pandas `max` over a date column). -/
def dateMax (a b : Date) : Date :=
  if a < b then b else a

/-- `group_by_customer["trans_date"].max()` for one group: the latest date of
a nonempty column; the `[]` case is irrelevant to the pipeline. -/
def colMaxDate (l : List Date) : Date :=
  match l with
  | [] => ⟨0, 0, 0⟩
  | d :: ds => ds.foldl dateMax d

/-- The distinct customer ids occurring in the transaction table (the group
keys of `data.groupby("customer_id")`). -/
def customerIds (ts : List Transaction) : List String :=
  (ts.map (fun t => t.customer_id)).dedup

/-- The group of one customer: all of their transactions. -/
def groupOf (ts : List Transaction) (id : String) : List Transaction :=
  ts.filter (fun t => t.customer_id == id)

/-- The `best_churn` dataframe: one row per distinct customer, carrying the
latest transaction date, the churn flag against the cutoff, the group size
(`nr_of_transactions`) and the summed amount (`amount_spent`). -/
def best_churn (cutoff : Date) (ts : List Transaction) : List CustomerSummary :=
  (customerIds ts).map fun id =>
    let g := groupOf ts id
    let last := colMaxDate (g.map (fun t => t.trans_date))
    { customer_id := id
      last_transaction_date := last
      churned := churned_flag cutoff last
      nr_of_transactions := g.length
      amount_spent := (g.map (fun t => t.tran_amount)).sum }

/-! ### Specification-side order predicates -/

/-- `m` is the population minimum of column `l`: attained and a lower bound. -/
def IsMinOf (m : ℚ) (l : List ℚ) : Prop :=
  m ∈ l ∧ ∀ x ∈ l, m ≤ x

/-- `M` is the population maximum of column `l`: attained and an upper bound. -/
def IsMaxOf (M : ℚ) (l : List ℚ) : Prop :=
  M ∈ l ∧ ∀ x ∈ l, x ≤ M

instance (m : ℚ) (l : List ℚ) : Decidable (IsMinOf m l) := by
  unfold IsMinOf; infer_instance

instance (M : ℚ) (l : List ℚ) : Decidable (IsMaxOf M l) := by
  unfold IsMaxOf; infer_instance

/-- A two-customer table in which every customer has the same
`nr_of_transactions`, so the count feature is degenerate. -/
def degenerate2 : List CustomerSummary :=
  [⟨"A", ⟨2019, 1, 1⟩, 1, 5, 10⟩,
   ⟨"B", ⟨2019, 2, 2⟩, 1, 5, 20⟩]

/-- A two-customer table degenerate in both features: equal counts and equal
amounts. -/
def degenerateBoth : List CustomerSummary :=
  [⟨"A", ⟨2019, 1, 1⟩, 1, 5, 10⟩,
   ⟨"B", ⟨2019, 2, 2⟩, 1, 5, 10⟩]

/-- A small concrete transaction table: customer FM1112 appears twice with a
later first date, FM1113 once. -/
def sampleTs : List Transaction :=
  [⟨"FM1112", ⟨2019, 10, 14⟩, 30⟩,
   ⟨"FM1113", ⟨2019, 1, 1⟩, 20⟩,
   ⟨"FM1112", ⟨2019, 9, 1⟩, 40⟩]

end CustomerValue

namespace CustomerValue

/-! ### Concrete tables from the notebook's displayed output -/

/-- The five customers shown in the notebook's `best_churn.head()` output:
counts `[15, 20, 19, 22, 13]`, amounts `[1012, 1490, 1432, 1659, 857]`. -/
def scenario5 : List CustomerSummary :=
  [⟨"FM1112", ⟨2019, 10, 14⟩, 1, 15, 1012⟩,
   ⟨"FM1113", ⟨2019, 11, 9⟩, 0, 20, 1490⟩,
   ⟨"FM1114", ⟨2019, 11, 12⟩, 0, 19, 1432⟩,
   ⟨"FM1115", ⟨2019, 12, 5⟩, 0, 22, 1659⟩,
   ⟨"FM1116", ⟨2019, 5, 25⟩, 1, 13, 857⟩]

/-- C2: the churn label is `1` exactly when the last transaction date is
strictly before the cutoff; with `cutoff_day = 2019-10-16`, a last date of
2019-10-14 is churned and a last date of exactly 2019-10-16 is not. -/
theorem churn_strict_cutoff :
    (∀ cutoff date : Date,
      (churned_flag cutoff date = 1 ↔ date < cutoff) ∧
      (churned_flag cutoff date = 0 ↔ ¬ date < cutoff)) ∧
    churned_flag cutoff_day ⟨2019, 10, 14⟩ = 1 ∧
    churned_flag cutoff_day ⟨2019, 10, 16⟩ = 0 := by
  refine ⟨fun cutoff date => ?_, by decide, by decide⟩
  unfold churned_flag
  constructor <;> split <;> simp_all

end CustomerValue

namespace CustomerValue

/-- C3: the selector output is the churned rows of the table in their
existing order, truncated to the first `n`: every selected row is churned,
the output length is `min n (number of churned rows)`, the output extends to
the full churned subset without reordering, `top_50_churned` is the `n = 50`
instance, and in the reference configuration `⌊1000 / 20⌋ = 50`. -/
theorem selector_churned_head (l : List ScoredCustomer) (n : ℕ) :
    (∀ s ∈ top_churned l n, s.churned = 1) ∧
    (top_churned l n).length = min n (l.filter (fun s => s.churned == 1)).length ∧
    (∃ rest, top_churned l n ++ rest = l.filter (fun s => s.churned == 1)) ∧
    top_50_churned l = top_churned l 50 ∧
    couponCount 1000 20 = 50 := by
  refine ⟨?_, ?_, ?_, rfl, ?_⟩
  · intro s hs
    have hmem := List.mem_of_mem_take hs
    have := List.of_mem_filter hmem
    simpa using this
  · exact List.length_take n _
  · refine ⟨(l.filter (fun s => s.churned == 1)).drop n, ?_⟩
    unfold top_churned
    exact List.take_append_drop n _
  · unfold couponCount
    norm_num

/-- C7 (counterexample): on an empty transaction table the aggregation cells
run through and produce an empty `best_churn` table; no failure occurs. -/
theorem aggregator_empty_counterexample :
    best_churn cutoff_day [] = [] := by
  rfl

/-- C7 (amended): on empty input the whole pipeline runs without error and
produces empty output at every stage: an empty summary table, an empty scored
table, and an empty selection. -/
theorem aggregator_empty_output (cutoff : Date) :
    best_churn cutoff [] = [] ∧
    score_table (best_churn cutoff []) = [] ∧
    top_50_churned (score_table (best_churn cutoff [])) = [] := by
  refine ⟨rfl, rfl, rfl⟩

/-- C8 (counterexample): for a population whose mean transaction amount is
exactly 64.99, the raw coupon `mean * 0.3` is 19.497, not 19.4975736; and
19.4975736 rounded to the nearest unit is 19, not 20. -/
theorem coupon_scenario_counterexample :
    amountMean [(6499/100 : ℚ)] = 6499/100 ∧
    coupon [(6499/100 : ℚ)] = 19497/1000 ∧
    (19497/1000 : ℚ) ≠ 194975736/10000000 ∧
    round ((194975736 : ℚ)/10000000) = 19 ∧
    (19 : ℤ) ≠ 20 := by
  refine ⟨?_, ?_, by norm_num, ?_, by decide⟩
  · unfold amountMean
    norm_num
  · unfold coupon amountMean
    norm_num
  · rw [round_eq]
    norm_num

/-- C8 (amended): with the reference mean transaction amount 64.991912
(displayed as 64.99), the raw coupon is 19.4975736; rounding it to the
nearest unit gives 19, while the value 20 actually used arises from rounding
up; the number of coupons is `⌊1000 / 20⌋ = 50`, and `1000 / raw coupon`
has floor 51 (the notebook prints 51.288...). -/
theorem coupon_reference_values :
    amountMean [(8123989/125000 : ℚ)] = 8123989/125000 ∧
    coupon [(8123989/125000 : ℚ)] = 194975736/10000000 ∧
    round (coupon [(8123989/125000 : ℚ)]) = 19 ∧
    ⌈coupon [(8123989/125000 : ℚ)]⌉ = 20 ∧
    couponCount 1000 20 = 50 ∧
    ⌊nr_of_customers [(8123989/125000 : ℚ)]⌋ = 51 := by
  have hc : coupon [(8123989/125000 : ℚ)] = 194975736/10000000 := by
    unfold coupon amountMean
    norm_num
  refine ⟨?_, hc, ?_, ?_, ?_, ?_⟩
  · unfold amountMean
    norm_num
  · rw [hc, round_eq]
    norm_num
  · rw [hc]
    rw [Int.ceil_eq_iff]
    norm_num
  · unfold couponCount
    norm_num
  · unfold nr_of_customers
    rw [hc]
    rw [Int.floor_eq_iff]
    norm_num

/-- C9 (counterexample): on the 5-customer population itself, the count-13,
amount-857 customer attains both feature minima, so its score is exactly 0 —
not approximately 25.57 (the scaled amount 0.2543 behind 25.57 comes from the
full dataset's min/max, not this population's). -/
theorem scenario5_counterexample :
    ((score_table scenario5).map (fun s => (s.customer_id, s.score)))[4]? =
      some ("FM1116", some 0) ∧
    ¬ |(0 : ℚ) - 2557/100| < 10 := by
  constructor
  · norm_num [score_table, scoreRow, scenario5, tranCol, amountCol,
      colMin, colMax, naDiv, naScore, min_def, max_def]
  · rw [zero_sub, abs_neg, abs_of_nonneg (by norm_num)]
    norm_num

/-- C9 (amended): scoring the 5-customer population with counts
`[15,20,19,22,13]` and amounts `[1012,1490,1432,1659,857]` gives scaled
counts `[2/9, 7/9, 2/3, 1, 0]` — 0 for the count-13 customer and 1 for the
count-22 customer — and the count-13, amount-857 customer's score is 0. -/
theorem scenario5_values :
    ((score_table scenario5).map (fun s => (s.nr_of_transactions, s.scaled_tran))) =
      [(15, some (2/9)), (20, some (7/9)), (19, some (2/3)),
       (22, some 1), (13, some 0)] ∧
    ((score_table scenario5).map (fun s => (s.amount_spent, s.score)))[4]? =
      some (857, some 0) := by
  constructor <;>
    norm_num [score_table, scoreRow, scenario5, tranCol, amountCol,
      colMin, colMax, naDiv, naScore, min_def, max_def]

end CustomerValue

namespace CustomerValue

/-! ### Order lemmas for dates -/

theorem Date.lt_def (a b : Date) :
    a < b ↔ (a.year < b.year ∨ (a.year = b.year ∧
      (a.month < b.month ∨ (a.month = b.month ∧ a.day < b.day)))) :=
  Iff.rfl

theorem Date.le_def (a b : Date) : a ≤ b ↔ (a = b ∨ a < b) :=
  Iff.rfl

theorem Date.lt_mk (y1 m1 d1 y2 m2 d2 : ℕ) :
    (⟨y1, m1, d1⟩ : Date) < ⟨y2, m2, d2⟩ ↔
      (y1 < y2 ∨ (y1 = y2 ∧ (m1 < m2 ∨ (m1 = m2 ∧ d1 < d2)))) :=
  Iff.rfl

theorem Date.le_refl (a : Date) : a ≤ a :=
  Or.inl rfl

theorem Date.le_of_not_lt {a b : Date} (h : ¬ a < b) : b ≤ a := by
  obtain ⟨y1, m1, d1⟩ := a
  obtain ⟨y2, m2, d2⟩ := b
  rw [Date.lt_mk] at h
  rw [Date.le_def, Date.lt_mk]
  simp only [Date.mk.injEq]
  omega

theorem Date.le_trans {a b c : Date} (h1 : a ≤ b) (h2 : b ≤ c) : a ≤ c := by
  obtain ⟨y1, m1, d1⟩ := a
  obtain ⟨y2, m2, d2⟩ := b
  obtain ⟨y3, m3, d3⟩ := c
  rw [Date.le_def, Date.lt_mk] at h1 h2
  rw [Date.le_def, Date.lt_mk]
  simp only [Date.mk.injEq] at h1 h2 ⊢
  omega

theorem le_dateMax_left (a b : Date) : a ≤ dateMax a b := by
  unfold dateMax
  split
  · exact Or.inr (by assumption)
  · exact Date.le_refl a

theorem le_dateMax_right (a b : Date) : b ≤ dateMax a b := by
  unfold dateMax
  split
  · exact Date.le_refl b
  · exact Date.le_of_not_lt (by assumption)

theorem dateMax_choice (a b : Date) : dateMax a b = a ∨ dateMax a b = b := by
  unfold dateMax
  split
  · exact Or.inr rfl
  · exact Or.inl rfl

theorem foldl_dateMax_init : ∀ (ds : List Date) (d : Date),
    d ≤ ds.foldl dateMax d := by
  intro ds
  induction ds with
  | nil => intro d; exact Date.le_refl d
  | cons a as ih =>
    intro d
    exact Date.le_trans (le_dateMax_left d a) (ih (dateMax d a))

theorem foldl_dateMax_le_mem : ∀ (ds : List Date) (d x : Date),
    x ∈ ds → x ≤ ds.foldl dateMax d := by
  intro ds
  induction ds with
  | nil => intro d x hx; exact absurd hx (List.not_mem_nil x)
  | cons a as ih =>
    intro d x hx
    rcases List.mem_cons.mp hx with h | h
    · subst h
      exact Date.le_trans (le_dateMax_right d x) (foldl_dateMax_init as (dateMax d x))
    · exact ih (dateMax d a) x h

theorem foldl_dateMax_mem : ∀ (ds : List Date) (d : Date),
    ds.foldl dateMax d = d ∨ ds.foldl dateMax d ∈ ds := by
  intro ds
  induction ds with
  | nil => intro d; exact Or.inl rfl
  | cons a as ih =>
    intro d
    rcases ih (dateMax d a) with h | h
    · rw [List.foldl_cons, h]
      rcases dateMax_choice d a with h2 | h2
      · exact Or.inl h2
      · right
        rw [h2]
        exact List.mem_cons_self a as
    · exact Or.inr (List.mem_cons_of_mem a h)

theorem colMaxDate_spec (l : List Date) (h : l ≠ []) :
    colMaxDate l ∈ l ∧ ∀ x ∈ l, x ≤ colMaxDate l := by
  match l with
  | [] => exact absurd rfl h
  | d :: ds =>
    constructor
    · show ds.foldl dateMax d ∈ d :: ds
      rcases foldl_dateMax_mem ds d with h2 | h2
      · rw [h2]
        exact List.mem_cons_self d ds
      · exact List.mem_cons_of_mem d h2
    · intro x hx
      rcases List.mem_cons.mp hx with h2 | h2
      · exact h2 ▸ foldl_dateMax_init ds d
      · exact foldl_dateMax_le_mem ds d x h2

/-! ### Folded minima and maxima of rational columns -/

theorem foldl_min_init : ∀ (xs : List ℚ) (x : ℚ), xs.foldl min x ≤ x := by
  intro xs
  induction xs with
  | nil => intro x; exact le_rfl
  | cons a as ih =>
    intro x
    exact le_trans (ih (min x a)) (min_le_left x a)

theorem foldl_min_le_mem : ∀ (xs : List ℚ) (x y : ℚ),
    y ∈ xs → xs.foldl min x ≤ y := by
  intro xs
  induction xs with
  | nil => intro x y hy; exact absurd hy (List.not_mem_nil y)
  | cons a as ih =>
    intro x y hy
    rcases List.mem_cons.mp hy with h | h
    · subst h
      exact le_trans (foldl_min_init as (min x y)) (min_le_right x y)
    · exact ih (min x a) y h

theorem foldl_min_mem : ∀ (xs : List ℚ) (x : ℚ),
    xs.foldl min x = x ∨ xs.foldl min x ∈ xs := by
  intro xs
  induction xs with
  | nil => intro x; exact Or.inl rfl
  | cons a as ih =>
    intro x
    rcases ih (min x a) with h | h
    · rw [List.foldl_cons, h]
      rcases min_choice x a with h2 | h2
      · exact Or.inl h2
      · right
        rw [h2]
        exact List.mem_cons_self a as
    · exact Or.inr (List.mem_cons_of_mem a h)

theorem foldl_max_init : ∀ (xs : List ℚ) (x : ℚ), x ≤ xs.foldl max x := by
  intro xs
  induction xs with
  | nil => intro x; exact le_rfl
  | cons a as ih =>
    intro x
    exact le_trans (le_max_left x a) (ih (max x a))

theorem foldl_max_le_mem : ∀ (xs : List ℚ) (x y : ℚ),
    y ∈ xs → y ≤ xs.foldl max x := by
  intro xs
  induction xs with
  | nil => intro x y hy; exact absurd hy (List.not_mem_nil y)
  | cons a as ih =>
    intro x y hy
    rcases List.mem_cons.mp hy with h | h
    · subst h
      exact le_trans (le_max_right x y) (foldl_max_init as (max x y))
    · exact ih (max x a) y h

theorem foldl_max_mem : ∀ (xs : List ℚ) (x : ℚ),
    xs.foldl max x = x ∨ xs.foldl max x ∈ xs := by
  intro xs
  induction xs with
  | nil => intro x; exact Or.inl rfl
  | cons a as ih =>
    intro x
    rcases ih (max x a) with h | h
    · rw [List.foldl_cons, h]
      rcases max_choice x a with h2 | h2
      · exact Or.inl h2
      · right
        rw [h2]
        exact List.mem_cons_self a as
    · exact Or.inr (List.mem_cons_of_mem a h)

theorem colMin_isMinOf (l : List ℚ) (h : l ≠ []) : IsMinOf (colMin l) l := by
  match l with
  | x :: xs =>
    constructor
    · show xs.foldl min x ∈ x :: xs
      rcases foldl_min_mem xs x with h2 | h2
      · rw [h2]
        exact List.mem_cons_self x xs
      · exact List.mem_cons_of_mem x h2
    · intro y hy
      rcases List.mem_cons.mp hy with h2 | h2
      · exact h2 ▸ foldl_min_init xs x
      · exact foldl_min_le_mem xs x y h2

theorem colMax_isMaxOf (l : List ℚ) (h : l ≠ []) : IsMaxOf (colMax l) l := by
  match l with
  | x :: xs =>
    constructor
    · show xs.foldl max x ∈ x :: xs
      rcases foldl_max_mem xs x with h2 | h2
      · rw [h2]
        exact List.mem_cons_self x xs
      · exact List.mem_cons_of_mem x h2
    · intro y hy
      rcases List.mem_cons.mp hy with h2 | h2
      · exact h2 ▸ foldl_max_init xs x
      · exact foldl_max_le_mem xs x y h2

theorem isMinOf_unique {m m2 : ℚ} {l : List ℚ}
    (h : IsMinOf m l) (h2 : IsMinOf m2 l) : m = m2 :=
  le_antisymm (h.2 m2 h2.1) (h2.2 m h.1)

theorem isMaxOf_unique {M M2 : ℚ} {l : List ℚ}
    (h : IsMaxOf M l) (h2 : IsMaxOf M2 l) : M = M2 :=
  le_antisymm (h2.2 M h.1) (h.2 M2 h2.1)

end CustomerValue

namespace CustomerValue

/-! ### Decomposition lemmas for the scoring table -/

theorem colMin_eq_of_isMinOf {m : ℚ} {l : List ℚ} (h : IsMinOf m l) :
    colMin l = m :=
  isMinOf_unique (colMin_isMinOf l (List.ne_nil_of_mem h.1)) h

theorem colMax_eq_of_isMaxOf {M : ℚ} {l : List ℚ} (h : IsMaxOf M l) :
    colMax l = M :=
  isMaxOf_unique (colMax_isMaxOf l (List.ne_nil_of_mem h.1)) h

theorem naDiv_of_ne {a b : ℚ} (h : b ≠ 0) : naDiv a b = some (a / b) := by
  unfold naDiv
  exact if_neg h

theorem naDiv_of_eq {a b : ℚ} (h : b = 0) : naDiv a b = none := by
  unfold naDiv
  exact if_pos h

theorem naScore_none_left (sa : Option ℚ) : naScore none sa = none := by
  cases sa <;> rfl

theorem naScore_none_right (st : Option ℚ) : naScore st none = none := by
  cases st <;> rfl

theorem mem_score_table {l : List CustomerSummary} {r : ScoredCustomer}
    (h : r ∈ score_table l) :
    ∃ s ∈ l, scoreRow (colMin (tranCol l)) (colMax (tranCol l))
      (colMin (amountCol l)) (colMax (amountCol l)) s = r := by
  unfold score_table at h
  exact List.mem_map.mp h

/-- C1: whenever neither feature is constant over the population, each row of
the scored table carries exactly the min-max normalized features and the
50/50 weighted score: `scaled_tran = (count - min)/(max - min)`,
`scaled_amount = (amount - min)/(max - min)`, and
`score = 100*(1/2*scaled_tran + 1/2*scaled_amount)`, with the minima and
maxima taken over the whole population. -/
theorem scorer_minmax_formula (l : List CustomerSummary) (mT MT mA MA : ℚ)
    (hmT : IsMinOf mT (tranCol l)) (hMT : IsMaxOf MT (tranCol l))
    (hmA : IsMinOf mA (amountCol l)) (hMA : IsMaxOf MA (amountCol l))
    (hT : mT ≠ MT) (hA : mA ≠ MA)
    (i : ℕ) (s : CustomerSummary) (r : ScoredCustomer)
    (hs : l[i]? = some s) (hr : (score_table l)[i]? = some r) :
    r.scaled_tran = some (((s.nr_of_transactions : ℚ) - mT) / (MT - mT)) ∧
    r.scaled_amount = some ((s.amount_spent - mA) / (MA - mA)) ∧
    r.score = some (100 * (1/2 * (((s.nr_of_transactions : ℚ) - mT) / (MT - mT)) +
      1/2 * ((s.amount_spent - mA) / (MA - mA)))) := by
  have hdT : MT - mT ≠ 0 := sub_ne_zero.mpr (Ne.symm hT)
  have hdA : MA - mA ≠ 0 := sub_ne_zero.mpr (Ne.symm hA)
  unfold score_table at hr
  rw [List.getElem?_map, hs] at hr
  have hr2 : scoreRow (colMin (tranCol l)) (colMax (tranCol l))
      (colMin (amountCol l)) (colMax (amountCol l)) s = r := by
    exact Option.some.inj hr
  subst hr2
  rw [colMin_eq_of_isMinOf hmT, colMax_eq_of_isMaxOf hMT,
    colMin_eq_of_isMinOf hmA, colMax_eq_of_isMaxOf hMA]
  unfold scoreRow
  rw [naDiv_of_ne hdT, naDiv_of_ne hdA]
  exact ⟨rfl, rfl, rfl⟩

/-- Witness for C1 at the 5-customer table: population minima/maxima 13/22
and 857/1659, row 4 (customer FM1116). -/
theorem scorer_minmax_formula_witness :
    (IsMinOf 13 (tranCol scenario5) ∧ IsMaxOf 22 (tranCol scenario5) ∧
     IsMinOf 857 (amountCol scenario5) ∧ IsMaxOf 1659 (amountCol scenario5) ∧
     (13 : ℚ) ≠ 22 ∧ (857 : ℚ) ≠ 1659 ∧
     scenario5[4]? = some ⟨"FM1116", ⟨2019, 5, 25⟩, 1, 13, 857⟩ ∧
     (score_table scenario5)[4]? =
       some ⟨"FM1116", 1, 13, 857, some 0, some 0, some 0⟩) ∧
    ((⟨"FM1116", 1, 13, 857, some 0, some 0, some 0⟩ : ScoredCustomer).scaled_tran =
       some ((((⟨"FM1116", ⟨2019, 5, 25⟩, 1, 13, 857⟩ :
         CustomerSummary).nr_of_transactions : ℚ) - 13) / (22 - 13)) ∧
     (⟨"FM1116", 1, 13, 857, some 0, some 0, some 0⟩ : ScoredCustomer).scaled_amount =
       some (((⟨"FM1116", ⟨2019, 5, 25⟩, 1, 13, 857⟩ :
         CustomerSummary).amount_spent - 857) / (1659 - 857)) ∧
     (⟨"FM1116", 1, 13, 857, some 0, some 0, some 0⟩ : ScoredCustomer).score =
       some (100 * (1/2 * ((((⟨"FM1116", ⟨2019, 5, 25⟩, 1, 13, 857⟩ :
           CustomerSummary).nr_of_transactions : ℚ) - 13) / (22 - 13)) +
         1/2 * (((⟨"FM1116", ⟨2019, 5, 25⟩, 1, 13, 857⟩ :
           CustomerSummary).amount_spent - 857) / (1659 - 857))))) := by
  have h1 : IsMinOf 13 (tranCol scenario5) := by
    norm_num [IsMinOf, tranCol, scenario5]
  have h2 : IsMaxOf 22 (tranCol scenario5) := by
    norm_num [IsMaxOf, tranCol, scenario5]
  have h3 : IsMinOf 857 (amountCol scenario5) := by
    norm_num [IsMinOf, amountCol, scenario5]
  have h4 : IsMaxOf 1659 (amountCol scenario5) := by
    norm_num [IsMaxOf, amountCol, scenario5]
  have hs : scenario5[4]? = some ⟨"FM1116", ⟨2019, 5, 25⟩, 1, 13, 857⟩ := rfl
  have hr : (score_table scenario5)[4]? =
      some ⟨"FM1116", 1, 13, 857, some 0, some 0, some 0⟩ := by
    norm_num [score_table, scoreRow, scenario5, tranCol, amountCol,
      colMin, colMax, naDiv, naScore, min_def, max_def]
  exact ⟨⟨h1, h2, h3, h4, by norm_num, by norm_num, hs, hr⟩,
    scorer_minmax_formula scenario5 13 22 857 1659 h1 h2 h3 h4
      (by norm_num) (by norm_num) 4 _ _ hs hr⟩

end CustomerValue

namespace CustomerValue

/-- C5: with both normalization denominators non-zero, every row's scaled
features lie in `[0,1]` — the population-minimum row maps exactly to 0 and
the population-maximum row exactly to 1, per feature — and every score lies
in `[0,100]`, with a row attaining both minima scoring exactly 0 and a row
attaining both maxima scoring exactly 100. -/
theorem scorer_range (l : List CustomerSummary) (mT MT mA MA : ℚ)
    (hmT : IsMinOf mT (tranCol l)) (hMT : IsMaxOf MT (tranCol l))
    (hmA : IsMinOf mA (amountCol l)) (hMA : IsMaxOf MA (amountCol l))
    (hT : mT ≠ MT) (hA : mA ≠ MA) :
    ∀ r ∈ score_table l,
      (∃ st, r.scaled_tran = some st ∧ 0 ≤ st ∧ st ≤ 1 ∧
        ((r.nr_of_transactions : ℚ) = mT → st = 0) ∧
        ((r.nr_of_transactions : ℚ) = MT → st = 1)) ∧
      (∃ sa, r.scaled_amount = some sa ∧ 0 ≤ sa ∧ sa ≤ 1 ∧
        (r.amount_spent = mA → sa = 0) ∧
        (r.amount_spent = MA → sa = 1)) ∧
      (∃ sc, r.score = some sc ∧ 0 ≤ sc ∧ sc ≤ 100 ∧
        ((r.nr_of_transactions : ℚ) = mT → r.amount_spent = mA → sc = 0) ∧
        ((r.nr_of_transactions : ℚ) = MT → r.amount_spent = MA → sc = 100)) := by
  intro r hr
  obtain ⟨s, hsl, hrow⟩ := mem_score_table hr
  subst hrow
  rw [colMin_eq_of_isMinOf hmT, colMax_eq_of_isMaxOf hMT,
    colMin_eq_of_isMinOf hmA, colMax_eq_of_isMaxOf hMA]
  have hTlt : mT < MT := lt_of_le_of_ne (hmT.2 MT hMT.1) hT
  have hAlt : mA < MA := lt_of_le_of_ne (hmA.2 MA hMA.1) hA
  have hdT : 0 < MT - mT := sub_pos.mpr hTlt
  have hdA : 0 < MA - mA := sub_pos.mpr hAlt
  have hcT : (s.nr_of_transactions : ℚ) ∈ tranCol l :=
    List.mem_map_of_mem _ hsl
  have hcA : s.amount_spent ∈ amountCol l :=
    List.mem_map_of_mem _ hsl
  have hT1 : mT ≤ (s.nr_of_transactions : ℚ) := hmT.2 _ hcT
  have hT2 : (s.nr_of_transactions : ℚ) ≤ MT := hMT.2 _ hcT
  have hA1 : mA ≤ s.amount_spent := hmA.2 _ hcA
  have hA2 : s.amount_spent ≤ MA := hMA.2 _ hcA
  unfold scoreRow
  rw [naDiv_of_ne (ne_of_gt hdT), naDiv_of_ne (ne_of_gt hdA)]
  have hst0 : 0 ≤ ((s.nr_of_transactions : ℚ) - mT) / (MT - mT) :=
    div_nonneg (by linarith) (le_of_lt hdT)
  have hst1 : ((s.nr_of_transactions : ℚ) - mT) / (MT - mT) ≤ 1 :=
    (div_le_one hdT).mpr (by linarith)
  have hsa0 : 0 ≤ (s.amount_spent - mA) / (MA - mA) :=
    div_nonneg (by linarith) (le_of_lt hdA)
  have hsa1 : (s.amount_spent - mA) / (MA - mA) ≤ 1 :=
    (div_le_one hdA).mpr (by linarith)
  dsimp only
  refine ⟨⟨((s.nr_of_transactions : ℚ) - mT) / (MT - mT), rfl, hst0, hst1, ?_, ?_⟩,
    ⟨(s.amount_spent - mA) / (MA - mA), rfl, hsa0, hsa1, ?_, ?_⟩,
    ⟨100 * (1/2 * (((s.nr_of_transactions : ℚ) - mT) / (MT - mT)) +
      1/2 * ((s.amount_spent - mA) / (MA - mA))), rfl,
      by linarith, by linarith, ?_, ?_⟩⟩
  · intro h
    rw [h, sub_self, zero_div]
  · intro h
    rw [h]
    exact div_self (ne_of_gt hdT)
  · intro h
    rw [h, sub_self, zero_div]
  · intro h
    rw [h]
    exact div_self (ne_of_gt hdA)
  · intro h1 h2
    rw [h1, h2, sub_self, sub_self, zero_div, zero_div]
    norm_num
  · intro h1 h2
    rw [h1, h2, div_self (ne_of_gt hdT), div_self (ne_of_gt hdA)]
    norm_num

/-- Witness for C5 at the 5-customer table with minima/maxima 13/22 and
857/1659. -/
theorem scorer_range_witness :
    (IsMinOf 13 (tranCol scenario5) ∧ IsMaxOf 22 (tranCol scenario5) ∧
     IsMinOf 857 (amountCol scenario5) ∧ IsMaxOf 1659 (amountCol scenario5) ∧
     (13 : ℚ) ≠ 22 ∧ (857 : ℚ) ≠ 1659) ∧
    (∀ r ∈ score_table scenario5,
      (∃ st, r.scaled_tran = some st ∧ 0 ≤ st ∧ st ≤ 1 ∧
        ((r.nr_of_transactions : ℚ) = 13 → st = 0) ∧
        ((r.nr_of_transactions : ℚ) = 22 → st = 1)) ∧
      (∃ sa, r.scaled_amount = some sa ∧ 0 ≤ sa ∧ sa ≤ 1 ∧
        (r.amount_spent = 857 → sa = 0) ∧
        (r.amount_spent = 1659 → sa = 1)) ∧
      (∃ sc, r.score = some sc ∧ 0 ≤ sc ∧ sc ≤ 100 ∧
        ((r.nr_of_transactions : ℚ) = 13 → r.amount_spent = 857 → sc = 0) ∧
        ((r.nr_of_transactions : ℚ) = 22 → r.amount_spent = 1659 → sc = 100))) := by
  have h1 : IsMinOf 13 (tranCol scenario5) := by
    norm_num [IsMinOf, tranCol, scenario5]
  have h2 : IsMaxOf 22 (tranCol scenario5) := by
    norm_num [IsMaxOf, tranCol, scenario5]
  have h3 : IsMinOf 857 (amountCol scenario5) := by
    norm_num [IsMinOf, amountCol, scenario5]
  have h4 : IsMaxOf 1659 (amountCol scenario5) := by
    norm_num [IsMaxOf, amountCol, scenario5]
  exact ⟨⟨h1, h2, h3, h4, by norm_num, by norm_num⟩,
    scorer_range scenario5 13 22 857 1659 h1 h2 h3 h4
      (by norm_num) (by norm_num)⟩

end CustomerValue

namespace CustomerValue

/-- Full evaluation of the scoring cell on the 5-customer table. -/
theorem score_table_scenario5 :
    score_table scenario5 =
      [⟨"FM1112", 1, 15, 1012, some (2/9), some (155/802), some (74975/3609)⟩,
       ⟨"FM1113", 0, 20, 1490, some (7/9), some (633/802), some (282775/3609)⟩,
       ⟨"FM1114", 0, 19, 1432, some (2/3), some (575/802), some (83225/1203)⟩,
       ⟨"FM1115", 0, 22, 1659, some 1, some 1, some 100⟩,
       ⟨"FM1116", 1, 13, 857, some 0, some 0, some 0⟩] := by
  norm_num [score_table, scoreRow, scenario5, tranCol, amountCol,
    colMin, colMax, naDiv, naScore, min_def, max_def]

/-- C10: with both features non-constant over the population, scoring is
monotone: a row with componentwise smaller (count, amount) never scores
strictly above a row with componentwise larger values. -/
theorem scorer_monotone (l : List CustomerSummary) (mT MT mA MA : ℚ)
    (hmT : IsMinOf mT (tranCol l)) (hMT : IsMaxOf MT (tranCol l))
    (hmA : IsMinOf mA (amountCol l)) (hMA : IsMaxOf MA (amountCol l))
    (hT : mT ≠ MT) (hA : mA ≠ MA) :
    ∀ ra ∈ score_table l, ∀ rb ∈ score_table l,
      ra.nr_of_transactions ≤ rb.nr_of_transactions →
      ra.amount_spent ≤ rb.amount_spent →
      ∃ qa qb, ra.score = some qa ∧ rb.score = some qb ∧ qa ≤ qb := by
  intro ra hra rb hrb
  obtain ⟨sa, hsal, hrowa⟩ := mem_score_table hra
  obtain ⟨sb, hsbl, hrowb⟩ := mem_score_table hrb
  subst hrowa
  subst hrowb
  rw [colMin_eq_of_isMinOf hmT, colMax_eq_of_isMaxOf hMT,
    colMin_eq_of_isMinOf hmA, colMax_eq_of_isMaxOf hMA]
  have hTlt : mT < MT := lt_of_le_of_ne (hmT.2 MT hMT.1) hT
  have hAlt : mA < MA := lt_of_le_of_ne (hmA.2 MA hMA.1) hA
  have hdT : 0 < MT - mT := sub_pos.mpr hTlt
  have hdA : 0 < MA - mA := sub_pos.mpr hAlt
  unfold scoreRow
  rw [naDiv_of_ne (ne_of_gt hdT), naDiv_of_ne (ne_of_gt hdA),
    naDiv_of_ne (ne_of_gt hdT), naDiv_of_ne (ne_of_gt hdA)]
  dsimp only
  intro hcount hamount
  have hcast : (sa.nr_of_transactions : ℚ) ≤ (sb.nr_of_transactions : ℚ) :=
    Nat.cast_le.mpr hcount
  have e1 : ((sa.nr_of_transactions : ℚ) - mT) / (MT - mT) ≤
      ((sb.nr_of_transactions : ℚ) - mT) / (MT - mT) := by
    gcongr
  have e2 : (sa.amount_spent - mA) / (MA - mA) ≤
      (sb.amount_spent - mA) / (MA - mA) := by
    gcongr
  exact ⟨_, _, rfl, rfl, by linarith⟩

/-- Witness for C10 at the 5-customer table: FM1116 (13, 857) against
FM1112 (15, 1012). -/
theorem scorer_monotone_witness :
    (IsMinOf 13 (tranCol scenario5) ∧ IsMaxOf 22 (tranCol scenario5) ∧
     IsMinOf 857 (amountCol scenario5) ∧ IsMaxOf 1659 (amountCol scenario5) ∧
     (13 : ℚ) ≠ 22 ∧ (857 : ℚ) ≠ 1659 ∧
     (⟨"FM1116", 1, 13, 857, some 0, some 0, some 0⟩ : ScoredCustomer) ∈
       score_table scenario5 ∧
     (⟨"FM1112", 1, 15, 1012, some (2/9), some (155/802), some (74975/3609)⟩ :
       ScoredCustomer) ∈ score_table scenario5) ∧
    (∃ qa qb,
      (⟨"FM1116", 1, 13, 857, some 0, some 0, some 0⟩ :
        ScoredCustomer).score = some qa ∧
      (⟨"FM1112", 1, 15, 1012, some (2/9), some (155/802), some (74975/3609)⟩ :
        ScoredCustomer).score = some qb ∧ qa ≤ qb) := by
  have h1 : IsMinOf 13 (tranCol scenario5) := by
    norm_num [IsMinOf, tranCol, scenario5]
  have h2 : IsMaxOf 22 (tranCol scenario5) := by
    norm_num [IsMaxOf, tranCol, scenario5]
  have h3 : IsMinOf 857 (amountCol scenario5) := by
    norm_num [IsMinOf, amountCol, scenario5]
  have h4 : IsMaxOf 1659 (amountCol scenario5) := by
    norm_num [IsMaxOf, amountCol, scenario5]
  have hma : (⟨"FM1116", 1, 13, 857, some 0, some 0, some 0⟩ : ScoredCustomer) ∈
      score_table scenario5 := by
    rw [score_table_scenario5]
    simp
  have hmb : (⟨"FM1112", 1, 15, 1012, some (2/9), some (155/802),
      some (74975/3609)⟩ : ScoredCustomer) ∈ score_table scenario5 := by
    rw [score_table_scenario5]
    simp
  exact ⟨⟨h1, h2, h3, h4, by norm_num, by norm_num, hma, hmb⟩,
    scorer_monotone scenario5 13 22 857 1659 h1 h2 h3 h4
      (by norm_num) (by norm_num) _ hma _ hmb (by norm_num) (by norm_num)⟩

/-- C6 (counterexample): on a table whose transaction counts are all equal,
the scoring cell does not fail — it returns a full table in which the
degenerate feature's scaled value and the score are non-numeric (NaN),
i.e. the invalid numeric result is propagated. -/
theorem scorer_degenerate_counterexample :
    (score_table degenerate2).map
        (fun r => (r.customer_id, r.scaled_tran, r.scaled_amount, r.score)) =
      [("A", none, some 0, none), ("B", none, some 1, none)] ∧
    (score_table degenerate2).length = 2 := by
  constructor
  · norm_num [score_table, scoreRow, degenerate2, tranCol, amountCol,
      colMin, colMax, naDiv, naScore, min_def, max_def]
  · norm_num [score_table, degenerate2]

/-- C6 (amended): when a feature is constant over the population, its
normalization denominator is zero and the scoring cell propagates a
non-numeric value: that feature's scaled column and the score column are NaN
for every row, and no error is raised. -/
theorem scorer_degenerate_propagates (l : List CustomerSummary) :
    ((∀ s ∈ l, ∀ s2 ∈ l, s.nr_of_transactions = s2.nr_of_transactions) →
      ∀ r ∈ score_table l, r.scaled_tran = none ∧ r.score = none) ∧
    ((∀ s ∈ l, ∀ s2 ∈ l, s.amount_spent = s2.amount_spent) →
      ∀ r ∈ score_table l, r.scaled_amount = none ∧ r.score = none) := by
  constructor
  · intro h r hr
    obtain ⟨s, hsl, hrow⟩ := mem_score_table hr
    subst hrow
    have hne : tranCol l ≠ [] :=
      List.ne_nil_of_mem (List.mem_map_of_mem _ hsl)
    have hmin := colMin_isMinOf _ hne
    have hmax := colMax_isMaxOf _ hne
    obtain ⟨s1, hs1, he1⟩ := List.mem_map.mp hmin.1
    obtain ⟨s2, hs2, he2⟩ := List.mem_map.mp hmax.1
    have heq : colMax (tranCol l) - colMin (tranCol l) = 0 := by
      rw [← he1, ← he2, h s2 hs2 s1 hs1, sub_self]
    unfold scoreRow
    rw [naDiv_of_eq heq]
    dsimp only
    exact ⟨rfl, naScore_none_left _⟩
  · intro h r hr
    obtain ⟨s, hsl, hrow⟩ := mem_score_table hr
    subst hrow
    have hne : amountCol l ≠ [] :=
      List.ne_nil_of_mem (List.mem_map_of_mem _ hsl)
    have hmin := colMin_isMinOf _ hne
    have hmax := colMax_isMaxOf _ hne
    obtain ⟨s1, hs1, he1⟩ := List.mem_map.mp hmin.1
    obtain ⟨s2, hs2, he2⟩ := List.mem_map.mp hmax.1
    have heq : colMax (amountCol l) - colMin (amountCol l) = 0 := by
      rw [← he1, ← he2, h s2 hs2 s1 hs1, sub_self]
    unfold scoreRow
    rw [naDiv_of_eq heq]
    dsimp only
    exact ⟨rfl, naScore_none_right _⟩

/-- Witness for C6 on the doubly degenerate two-customer table. -/
theorem scorer_degenerate_propagates_witness :
    (∀ s ∈ degenerateBoth, ∀ s2 ∈ degenerateBoth,
      s.nr_of_transactions = s2.nr_of_transactions) ∧
    (∀ s ∈ degenerateBoth, ∀ s2 ∈ degenerateBoth,
      s.amount_spent = s2.amount_spent) ∧
    (∀ r ∈ score_table degenerateBoth,
      r.scaled_tran = none ∧ r.score = none) ∧
    (∀ r ∈ score_table degenerateBoth,
      r.scaled_amount = none ∧ r.score = none) := by
  have h1 : ∀ s ∈ degenerateBoth, ∀ s2 ∈ degenerateBoth,
      s.nr_of_transactions = s2.nr_of_transactions := by
    simp [degenerateBoth]
  have h2 : ∀ s ∈ degenerateBoth, ∀ s2 ∈ degenerateBoth,
      s.amount_spent = s2.amount_spent := by
    simp [degenerateBoth]
  exact ⟨h1, h2, (scorer_degenerate_propagates degenerateBoth).1 h1,
    (scorer_degenerate_propagates degenerateBoth).2 h2⟩

end CustomerValue

namespace CustomerValue

/-- C4: for every id occurring in the transaction table, `best_churn` has
exactly one row with that id; its `nr_of_transactions` is the number of that
customer's transactions, its `amount_spent` is their summed amount, and its
`last_transaction_date` is the latest of their dates (attained and an upper
bound). -/
theorem aggregator_unique_summary (cutoff : Date) (ts : List Transaction)
    (id : String) (hid : ∃ t ∈ ts, t.customer_id = id) :
    ((best_churn cutoff ts).filter (fun s => s.customer_id == id)).length = 1 ∧
    ∀ s ∈ best_churn cutoff ts, s.customer_id = id →
      s.nr_of_transactions = ts.countP (fun t => t.customer_id == id) ∧
      s.amount_spent =
        ((ts.filter (fun t => t.customer_id == id)).map
          (fun t => t.tran_amount)).sum ∧
      s.last_transaction_date ∈
        (ts.filter (fun t => t.customer_id == id)).map (fun t => t.trans_date) ∧
      ∀ d ∈ (ts.filter (fun t => t.customer_id == id)).map
          (fun t => t.trans_date), d ≤ s.last_transaction_date := by
  obtain ⟨t, ht, htid⟩ := hid
  constructor
  · have hidmem : id ∈ customerIds ts := by
      unfold customerIds
      rw [List.mem_dedup]
      exact List.mem_map.mpr ⟨t, ht, htid⟩
    unfold best_churn
    rw [← List.countP_eq_length_filter]
    rw [List.countP_map]
    exact List.count_eq_one_of_mem (List.nodup_dedup _) hidmem
  · intro s hs hsid
    unfold best_churn at hs
    rcases List.mem_map.mp hs with ⟨k, hk, heq⟩
    have hk2 : k = id := by
      rw [← heq] at hsid
      exact hsid
    subst hk2
    subst heq
    have hg : t ∈ groupOf ts k := by
      unfold groupOf
      rw [List.mem_filter]
      refine ⟨ht, ?_⟩
      simp [htid]
    have hne : (groupOf ts k).map (fun t2 => t2.trans_date) ≠ [] :=
      List.ne_nil_of_mem (List.mem_map_of_mem _ hg)
    have hspec := colMaxDate_spec _ hne
    refine ⟨?_, rfl, hspec.1, hspec.2⟩
    show (groupOf ts k).length = ts.countP (fun t2 => t2.customer_id == k)
    rw [List.countP_eq_length_filter]
    rfl

/-- Witness for C4 on the three-transaction sample table, customer FM1112. -/
theorem aggregator_unique_summary_witness :
    (∃ t ∈ sampleTs, t.customer_id = "FM1112") ∧
    (((best_churn cutoff_day sampleTs).filter
        (fun s => s.customer_id == "FM1112")).length = 1 ∧
     ∀ s ∈ best_churn cutoff_day sampleTs, s.customer_id = "FM1112" →
       s.nr_of_transactions =
         sampleTs.countP (fun t => t.customer_id == "FM1112") ∧
       s.amount_spent =
         ((sampleTs.filter (fun t => t.customer_id == "FM1112")).map
           (fun t => t.tran_amount)).sum ∧
       s.last_transaction_date ∈
         (sampleTs.filter (fun t => t.customer_id == "FM1112")).map
           (fun t => t.trans_date) ∧
       ∀ d ∈ (sampleTs.filter (fun t => t.customer_id == "FM1112")).map
           (fun t => t.trans_date), d ≤ s.last_transaction_date) := by
  have hid : ∃ t ∈ sampleTs, t.customer_id = "FM1112" :=
    ⟨⟨"FM1112", ⟨2019, 10, 14⟩, 30⟩, by simp [sampleTs], rfl⟩
  exact ⟨hid, aggregator_unique_summary cutoff_day sampleTs "FM1112" hid⟩

end CustomerValue
